import Mathlib

/-
Verification development for the cpp_buffer repository.

The embedding models the stride-1 specialization Buffer<T, 1u, ptr_t>
(include/cpp_buffer/buffer.h), the bounds-check configuration macros
(include/cpp_buffer/buffer_assert.h) and the assert_hook implementation
(src/buffer_assert.cpp).  The ownership handle (a smart pointer) is modelled by
the base address its get() returns; element addresses are integers (element
units); element values of the payload type T are modelled as integers; the heap
is a total map from addresses to values.  size_t sizes are Nat, the int index
of operator[] is Int.
-/

namespace CPPBuffer

/-- Addresses in element units.  An ownership handle (shared_ptr-style) is
modelled by the address its get() returns; the null handle has address 0. -/
abbrev Ptr := Nat

/-- The null ownership handle: get() returns the null pointer, address 0. -/
def nullptr : Ptr := 0

/-- The heap: a total map from element addresses to element values (the payload
type T is modelled as Int). -/
abbrev Heap := Int → Int

/-- Allocation state for the default `new T[n]` mechanism: the next fresh base
address. -/
abbrev AllocState := Nat

/-- A caller-supplied allocator: allocate(n) either returns an ownership handle
or raises an error (for example out-of-memory), modelled as Except. -/
abbrev AllocatorFn := Nat → Except String Ptr

/-- Compile-time configuration flags of the repository, from
buffer_assert.h and the host toolchain:
ndebug is the host NDEBUG switch controlling the plain assert of cassert;
the other three are CPPBUFFER_USES_ASSERT, CPPBUFFER_ASSERT_USES_CASSERT and
CPPBUFFER_ASSERT_USES_EXCEPTIONS. -/
structure Config where
  ndebug : Bool
  uses_assert : Bool
  assert_uses_cassert : Bool
  assert_uses_exceptions : Bool
deriving DecidableEq

/-- The exception-raising bounds-check strategy is active: assertions compiled
in, hook backend selected, exceptions selected, host assertions also live. -/
def cfgExc : Config := ⟨false, true, false, true⟩

/-- Same flags but with NDEBUG defined, which compiles out the plain assert of
cassert. -/
def cfgExcNdebug : Config := ⟨true, true, false, true⟩

/-- OUT_OF_RANGE_STRING from src/buffer_assert.cpp: the statically initialized
fallback diagnostic. -/
def OUT_OF_RANGE_STRING : String := "Buffer access out of bounds"

/-- The diagnostic text snprintf writes into the 1024-byte stack buffer in
assert_hook, following the format string
%s:%d buffer assert condition failed. Got %d from "%s"
with arguments file, line, condition, conditionString; at most 1023 characters
are kept (snprintf truncates and null-terminates). -/
def formatDiagnostic (file : String) (line : Int) (condition : Int)
    (conditionString : String) : String :=
  (file ++ ":" ++ toString line ++ " buffer assert condition failed. Got "
    ++ toString condition ++ " from \"" ++ conditionString ++ "\"").take 1023

/-- The try-block body of assert_hook (src/buffer_assert.cpp): snprintf formats
the diagnostic (snprintf itself cannot raise), then
throw OutOfRangeError(buffer) makes the outcome of the block an exception
carrying the formatted text. -/
def assert_hook_try_body (file : String) (line : Int) (condition : Int)
    (conditionString : String) : Except String Unit :=
  Except.error (formatDiagnostic file line condition conditionString)

/-- assert_hook from src/buffer_assert.cpp: runs the try block; the
catch-all handler receives ANY exception escaping the compound statement of the
try block, including the throw the block itself performs, and rethrows
OutOfRangeError(OUT_OF_RANGE_STRING).  An exception value is the message of the
OutOfRangeError (std::out_of_range) carried out of the call. -/
def assert_hook (file : String) (line : Int) (condition : Int)
    (conditionString : String) : Except String Unit :=
  match assert_hook_try_body file line condition conditionString with
  | Except.ok u => Except.ok u
  | Except.error _ => Except.error OUT_OF_RANGE_STRING

/-- Outcome of evaluating a bounds check. -/
inductive CheckOutcome where
  | passed
  | aborted
  | raised (msg : String)
deriving DecidableEq

/-- The cpp_buffer_assert macro from buffer_assert.h.
With CPPBUFFER_USES_ASSERT and CPPBUFFER_ASSERT_USES_CASSERT it delegates to
the host assertion facility (abort on failure).
With CPPBUFFER_USES_ASSERT alone, a failed condition calls
CPPBuffer::assert_hook(FILE, LINE, cond, #cond); the condition value passed is
the int conversion of the failed condition, 0.  Otherwise it expands to
(void(0)), a no-op. -/
def cpp_buffer_assert (cfg : Config) (file : String) (line : Int) (cond : Bool)
    (condStr : String) : CheckOutcome :=
  if cfg.uses_assert && cfg.assert_uses_cassert then
    (if cond then CheckOutcome.passed else CheckOutcome.aborted)
  else if cfg.uses_assert then
    (if cond then CheckOutcome.passed
     else
       match assert_hook file line (if cond then 1 else 0) condStr with
       | Except.ok _ => CheckOutcome.passed
       | Except.error m => CheckOutcome.raised m)
  else CheckOutcome.passed

/-- Buffer<T, 1u, pointer_t> from buffer.h: the ownership handle mMemory and
the logical element count mSize.  The in-class initializers (lines 106-107)
are mMemory = nullptr and mSize = 0. -/
structure Buffer where
  mMemory : Ptr
  mSize : Nat
deriving DecidableEq

/-- Buffer(): the defaulted default constructor leaves the in-class
initializers in effect, mMemory = nullptr and mSize = 0. -/
def Buffer.default_ctor : Buffer := ⟨nullptr, 0⟩

/-- Buffer(const ptr_t &p, size_t s): initializer list mMemory(p), mSize(s);
the body is empty, so the allocation state passes through untouched. -/
def Buffer.ctor_handle (st : AllocState) (p : Ptr) (s : Nat) :
    Buffer × AllocState :=
  (⟨p, s⟩, st)

/-- Buffer(ptr_t &&other, size_t s): initializer list
mMemory(std::move(other)), mSize(s); a move of the handle transfers the same
address; no allocation performed. -/
def Buffer.ctor_handle_move (st : AllocState) (p : Ptr) (s : Nat) :
    Buffer × AllocState :=
  (⟨p, s⟩, st)

/-- Buffer(size_t n, allocator_t &a): initializer list mMemory(a.allocate(n)),
mSize(n).  If allocate raises, the exception propagates out of the constructor
before any member is formed; no retry, fallback or translation happens. -/
def Buffer.ctor_allocator (a : AllocatorFn) (n : Nat) : Except String Buffer :=
  match a n with
  | Except.ok p => Except.ok ⟨p, n⟩
  | Except.error e => Except.error e

/-- Buffer(size_t n): initializer list
mMemory(std::shared_ptr<T>(new T[n], deleter)), mSize(n); modelled as drawing a
fresh base address from the allocation state and advancing it by n. -/
def Buffer.ctor_default_alloc (st : AllocState) (n : Nat) :
    Buffer × AllocState :=
  (⟨st, n⟩, st + n)

/-- size() from buffer.h line 180: returns mSize. -/
def Buffer.size (b : Buffer) : Nat := b.mSize

/-- The free function size_of from buffer.h lines 111-114:
buffer.size() * sizeof(T).  sizeof(T) is a compile-time constant of the
instantiation, passed here as a parameter. -/
def size_of (b : Buffer) (sizeofT : Nat) : Nat := Buffer.size b * sizeofT

/-- The condition asserted by operator[] (buffer.h line 147):
i >= 0 && static_cast<size_t>(i) < mSize.  The cast of a negative int to
size_t would wrap, but the left conjunct short-circuits that case, so Int.toNat
is faithful. -/
def Buffer.boundsOk (b : Buffer) (i : Int) : Bool :=
  decide (0 ≤ i) && decide (i.toNat < b.mSize)

/-- Address of mMemory.get()[i]: the element address base + i in element
units. -/
def Buffer.elemAddr (b : Buffer) (i : Int) : Int := (b.mMemory : Int) + i

/-- Outcome of an element access through operator[]. -/
inductive AccessOutcome where
  | ref (addr : Int)
  | aborted
  | raised (msg : String)
deriving DecidableEq

/-- operator[](int i) from buffer.h lines 145-149 (the const overload at lines
151-156 has the identical body):
assert(i >= 0 && static_cast<size_t>(i) < mSize); return mMemory.get()[i];
The check is the plain host assert from cassert, compiled out exactly when
NDEBUG is defined; the cpp_buffer_assert macro of buffer_assert.h is not
referenced by buffer.h, so the outcome depends on no CPPBUFFER flag. -/
def Buffer.subscript (cfg : Config) (b : Buffer) (i : Int) : AccessOutcome :=
  if !cfg.ndebug && !(b.boundsOk i) then AccessOutcome.aborted
  else AccessOutcome.ref (b.elemAddr i)

/-- begin() from buffer.h lines 160-162: returns mMemory.get(). -/
def Buffer.begin (b : Buffer) : Int := (b.mMemory : Int)

/-- end() from buffer.h lines 164-167: returns mMemory.get() + mSize. -/
def Buffer.end_ (b : Buffer) : Int := (b.mMemory : Int) + (b.mSize : Int)

/-- begin() const from buffer.h lines 169-172: same body as the mutable
overload. -/
def Buffer.begin_const (b : Buffer) : Int := (b.mMemory : Int)

/-- end() const from buffer.h lines 174-177: same body as the mutable
overload. -/
def Buffer.end_const (b : Buffer) : Int := (b.mMemory : Int) + (b.mSize : Int)

/-- The address sequence a raw cursor visits walking from pos to stop by unit
steps, the stride-1 traversal of the half-open interval. -/
def ptrWalk (pos stop : Int) : List Int :=
  if h : pos < stop then pos :: ptrWalk (pos + 1) stop else []
termination_by (stop - pos).toNat
decreasing_by
  simp_wf
  omega

/-- Modelled from the spec: the Slice class template is only forward-declared
under src (buffer.h lines 40-41); its definition is not in the repository
snapshot.  Per the spec, a slice keeps the same ownership handle as its parent,
an origin offset, the visible extent (logical element count), and the stride;
size() returns the extent and indexing translates logical index k to
origin_offset + k * stride before touching the backing handle. -/
structure Slice where
  mMemory : Ptr
  origin_offset : Nat
  extent : Nat
  strideVal : Nat
deriving DecidableEq

/-- Modelled from the spec: the Slice constructor invoked by
Buffer::slice (buffer.h line 188) receives (mMemory, mSize, begin, end,
stride); the slice covers the half-open range from begin to end of the parent
indexing, so origin_offset = begin and extent = end - begin; the parent size
argument is received but, per the deferred-validation baseline of the spec, not
checked eagerly. -/
def Slice.ctor (mem : Ptr) (_parentSize : Nat) (b e : Nat) (stride : Nat) :
    Slice :=
  ⟨mem, b, e - b, stride⟩

/-- Modelled from the spec: size() of a slice returns the visible extent. -/
def Slice.size (sl : Slice) : Nat := sl.extent

/-- Modelled from the spec: indexing a slice at logical index k touches the
backing element at address base + origin_offset + k * stride. -/
def Slice.subscript_addr (sl : Slice) (k : Nat) : Int :=
  (sl.mMemory : Int) + ((sl.origin_offset + k * sl.strideVal : Nat) : Int)

/-- slice<s>(size_t begin, size_t end) from buffer.h lines 185-189:
returns Slice<T, s, ptr_t>(mMemory, mSize, begin, end, s). -/
def Buffer.slice (bf : Buffer) (s : Nat) (b e : Nat) : Slice :=
  Slice.ctor bf.mMemory bf.mSize b e s

/-- Reading the heap at an address. -/
def readAt (h : Heap) (a : Int) : Int := h a

/-- Writing the heap at an address. -/
def writeAt (h : Heap) (a : Int) (v : Int) : Heap :=
  fun x => if x = a then v else h x

/-- Reading element i of a buffer view: dereferences the reference
operator[] returns. -/
def Buffer.read (h : Heap) (b : Buffer) (i : Int) : Int :=
  readAt h (b.elemAddr i)

/-- Writing element i of a buffer view through the reference operator[]
returns. -/
def Buffer.write (h : Heap) (b : Buffer) (i : Int) (v : Int) : Heap :=
  writeAt h (b.elemAddr i) v

/-- Reading logical element k of a slice view. -/
def Slice.read (h : Heap) (sl : Slice) (k : Nat) : Int :=
  readAt h (sl.subscript_addr k)

/-- Defaulted copy constructor of Buffer (buffer.h line 75): memberwise copy;
the ownership handle is copied (sharing the allocation, for a shared_ptr by
incrementing the reference count), no element memory is duplicated. -/
def Buffer.copy (b : Buffer) : Buffer := ⟨b.mMemory, b.mSize⟩

/-- Defaulted copy assignment of Buffer (buffer.h line 78): memberwise
assignment; the target ends up with the members of the source. -/
def Buffer.copy_assign (_target : Buffer) (b : Buffer) : Buffer :=
  ⟨b.mMemory, b.mSize⟩

/-- An allocator that always fails with an out-of-memory error. -/
def allocFail : AllocatorFn := fun _ => Except.error "out of memory"

/-- An allocator that always hands out the base address 3. -/
def allocAt3 : AllocatorFn := fun _ => Except.ok 3

end CPPBuffer

namespace CPPBuffer

/-- Helper: walking from a to a + n by unit steps visits exactly the n
addresses a, a+1, ..., a+n-1 in order. -/
theorem ptrWalk_add (n : Nat) :
    ∀ a : Int, ptrWalk a (a + (n : Int)) =
      (List.range n).map (fun k : Nat => a + (k : Int)) := by
  induction n with
  | zero =>
    intro a
    rw [ptrWalk]
    simp
  | succ m ih =>
    intro a
    rw [ptrWalk]
    have hlt : a < a + ((m + 1 : Nat) : Int) := by push_cast; omega
    rw [dif_pos hlt]
    have hstop : a + ((m + 1 : Nat) : Int) = (a + 1) + (m : Int) := by
      push_cast; ring
    rw [hstop, ih (a + 1), List.range_succ_eq_map]
    simp only [List.map_cons, List.map_map, Nat.cast_zero, add_zero]
    have hfun : ((fun k : Nat => a + (k : Int)) ∘ Nat.succ)
        = fun k : Nat => (a + 1) + (k : Int) := by
      funext k
      show a + ((Nat.succ k : Nat) : Int) = (a + 1) + (k : Int)
      push_cast
      ring
    rw [hfun]

/-- C1: the claim says assert_hook raises an out-of-range error whose message
carries the file, line and literal condition text, with the fixed fallback
reserved for formatting failures.  In the code the throw of the formatted
diagnostic sits inside the try block, so the catch-all handler intercepts it
and every invocation raises the fallback string instead; evaluated at the
bounds-failure arguments operator[] would pass, the raised message is the
fallback even though the try block did produce, and discarded, the formatted
diagnostic. -/
theorem c1_assert_hook_always_raises_fallback :
    assert_hook "include/cpp_buffer/buffer.h" 147 0
        "i >= 0 && static_cast<size_t>(i) < mSize" =
      Except.error "Buffer access out of bounds" ∧
    assert_hook_try_body "include/cpp_buffer/buffer.h" 147 0
        "i >= 0 && static_cast<size_t>(i) < mSize" =
      Except.error (formatDiagnostic "include/cpp_buffer/buffer.h" 147 0
        "i >= 0 && static_cast<size_t>(i) < mSize") :=
  ⟨rfl, rfl⟩

/-- C2: the claim says operator[] validates through the compile-time-selected
bounds-check strategy strategy and, with the exception-raising strategy active,
out-of-range access raises an out-of-range error.  In the code operator[]
checks bounds with the plain host assert and never invokes cpp_buffer_assert,
so with the exception-raising strategy active an access at index 10 or -1 of a
size-10 buffer aborts (NDEBUG absent) or is entirely unchecked (NDEBUG
present) and never raises, even though cpp_buffer_assert itself would have
raised on the failed condition. -/
theorem c2_subscript_never_raises :
    Buffer.subscript cfgExc ⟨4, 10⟩ 10 = AccessOutcome.aborted ∧
    Buffer.subscript cfgExc ⟨4, 10⟩ (-1) = AccessOutcome.aborted ∧
    Buffer.subscript cfgExcNdebug ⟨4, 10⟩ 10 = AccessOutcome.ref 14 ∧
    Buffer.subscript cfgExcNdebug ⟨4, 10⟩ (-1) = AccessOutcome.ref 3 ∧
    cpp_buffer_assert cfgExc "include/cpp_buffer/buffer.h" 147 false
        "i >= 0 && static_cast<size_t>(i) < mSize" =
      CheckOutcome.raised OUT_OF_RANGE_STRING := by
  decide

/-- C3: a buffer constructed with size n, by any of the four constructor forms
taking a size, reports size() = n, and size_of returns n * sizeof(T). -/
theorem c3_constructed_size (st : AllocState) (p q : Ptr) (n szT : Nat)
    (a : AllocatorFn) (ha : a n = Except.ok q) :
    (Buffer.ctor_handle st p n).1.size = n ∧
    (Buffer.ctor_handle_move st p n).1.size = n ∧
    Buffer.ctor_allocator a n = Except.ok ⟨q, n⟩ ∧
    Buffer.size ⟨q, n⟩ = n ∧
    (Buffer.ctor_default_alloc st n).1.size = n ∧
    (∀ b : Buffer, b.size = n → size_of b szT = n * szT) := by
  refine ⟨rfl, rfl, ?_, rfl, rfl, ?_⟩
  · unfold Buffer.ctor_allocator
    rw [ha]
  · intro b hb
    unfold size_of
    rw [hb]

/-- Witness for C3 at concrete inputs. -/
theorem c3_constructed_size_witness :
    allocAt3 5 = Except.ok 3 ∧
    (Buffer.ctor_handle 1 2 5).1.size = 5 ∧
    Buffer.ctor_allocator allocAt3 5 = Except.ok ⟨3, 5⟩ ∧
    size_of ⟨3, 5⟩ 4 = 5 * 4 := by
  have h := c3_constructed_size 1 2 3 5 4 allocAt3 rfl
  exact ⟨rfl, h.1, h.2.2.1, h.2.2.2.2.2 ⟨3, 5⟩ rfl⟩

/-- C4: for a buffer of size n and a slice taken with bounds 0 <= b <= e <= n
at stride S, the slice size() equals e - b, and for every k in range with
b + k * S < n the slice element k has the same address as buffer element
b + k * S. -/
theorem c4_slice_size_alias (bf : Buffer) (S b e : Nat)
    (h1 : b ≤ e) (h2 : e ≤ bf.size) :
    (Buffer.slice bf S b e).size = e - b ∧
    (∀ k : Nat, k < (Buffer.slice bf S b e).size → b + k * S < bf.size →
      Slice.subscript_addr (Buffer.slice bf S b e) k =
        Buffer.elemAddr bf ((b + k * S : Nat) : Int)) := by
  constructor
  · rfl
  · intro k _ _
    rfl

/-- Witness for C4 at concrete inputs. -/
theorem c4_slice_size_alias_witness :
    (0 : Nat) ≤ 10 ∧ (10 : Nat) ≤ Buffer.size ⟨4, 10⟩ ∧
    (Buffer.slice ⟨4, 10⟩ 2 0 10).size = 10 - 0 ∧
    Slice.subscript_addr (Buffer.slice ⟨4, 10⟩ 2 0 10) 1 =
      Buffer.elemAddr ⟨4, 10⟩ ((0 + 1 * 2 : Nat) : Int) := by
  have h := c4_slice_size_alias ⟨4, 10⟩ 2 0 10 (by decide) (by decide)
  exact ⟨by decide, by decide, h.1, h.2 1 (by decide) (by decide)⟩

/-- C5: for a valid index i, operator[] returns a reference to the element at
address base + i of the backing memory, and a write through that reference is
read back through any buffer or slice view whose index maps to the same
backing address. -/
theorem c5_subscript_reference_aliasing (cfg : Config) (h : Heap) (b : Buffer)
    (i v : Int) (hv : b.boundsOk i = true) :
    Buffer.subscript cfg b i = AccessOutcome.ref (b.elemAddr i) ∧
    (∀ (b2 : Buffer) (j : Int), b2.elemAddr j = b.elemAddr i →
      Buffer.read (Buffer.write h b i v) b2 j = v) ∧
    (∀ (sl : Slice) (k : Nat), sl.subscript_addr k = b.elemAddr i →
      Slice.read (Buffer.write h b i v) sl k = v) := by
  refine ⟨?_, ?_, ?_⟩
  · unfold Buffer.subscript
    rw [hv]
    simp
  · intro b2 j hj
    unfold Buffer.read Buffer.write readAt writeAt
    rw [hj]
    simp
  · intro sl k hk
    unfold Slice.read Buffer.write readAt writeAt
    rw [hk]
    simp

/-- Witness for C5 at concrete inputs. -/
theorem c5_subscript_reference_aliasing_witness :
    Buffer.boundsOk ⟨4, 10⟩ 4 = true ∧
    Buffer.subscript cfgExc ⟨4, 10⟩ 4 =
      AccessOutcome.ref (Buffer.elemAddr ⟨4, 10⟩ 4) ∧
    Buffer.read (Buffer.write (fun _ => 0) ⟨4, 10⟩ 4 7) ⟨4, 10⟩ 4 = 7 ∧
    Slice.read (Buffer.write (fun _ => 0) ⟨4, 10⟩ 4 7)
      (Buffer.slice ⟨4, 10⟩ 2 0 10) 2 = 7 := by
  have h := c5_subscript_reference_aliasing cfgExc (fun _ => 0) ⟨4, 10⟩ 4 7
    (by decide)
  exact ⟨by decide, h.1, h.2.1 ⟨4, 10⟩ 4 rfl,
    h.2.2 (Buffer.slice ⟨4, 10⟩ 2 0 10) 2 (by decide)⟩

/-- C6: for every stride-1 buffer, end() equals begin() advanced by size()
elements, the const overloads return the same cursors, and a unit-step walk
from begin() to end() visits exactly the size() element addresses in index
order. -/
theorem c6_begin_end_span (b : Buffer) :
    Buffer.end_ b = Buffer.begin b + (Buffer.size b : Int) ∧
    Buffer.begin_const b = Buffer.begin b ∧
    Buffer.end_const b = Buffer.end_ b ∧
    ptrWalk (Buffer.begin b) (Buffer.end_ b) =
      (List.range (Buffer.size b)).map
        (fun k : Nat => Buffer.begin b + (k : Int)) := by
  refine ⟨rfl, rfl, rfl, ?_⟩
  exact ptrWalk_add (Buffer.size b) (Buffer.begin b)

/-- C7: the handle-wrapping constructors store the caller-supplied handle and
size exactly as given, for every size value, and leave the allocation state
untouched (no allocation performed). -/
theorem c7_handle_ctors_store_as_given (st : AllocState) (p : Ptr) (s : Nat) :
    (Buffer.ctor_handle st p s).1.mMemory = p ∧
    (Buffer.ctor_handle st p s).1.size = s ∧
    (Buffer.ctor_handle st p s).2 = st ∧
    (Buffer.ctor_handle_move st p s).1.mMemory = p ∧
    (Buffer.ctor_handle_move st p s).1.size = s ∧
    (Buffer.ctor_handle_move st p s).2 = st :=
  ⟨rfl, rfl, rfl, rfl, rfl, rfl⟩

/-- C8: Buffer(size, allocator) stores whatever handle allocate(size) returns
together with the size, and any error the allocator raises propagates
unchanged, with no retry, fallback or translation. -/
theorem c8_allocator_ctor_propagates (a : AllocatorFn) (n : Nat) (e : String)
    (p : Ptr) :
    (a n = Except.error e → Buffer.ctor_allocator a n = Except.error e) ∧
    (a n = Except.ok p →
      Buffer.ctor_allocator a n = Except.ok ⟨p, n⟩) := by
  constructor
  · intro h
    unfold Buffer.ctor_allocator
    rw [h]
  · intro h
    unfold Buffer.ctor_allocator
    rw [h]

/-- Witness for C8 at concrete allocators. -/
theorem c8_allocator_ctor_propagates_witness :
    allocFail 5 = Except.error "out of memory" ∧
    Buffer.ctor_allocator allocFail 5 = Except.error "out of memory" ∧
    allocAt3 5 = Except.ok 3 ∧
    Buffer.ctor_allocator allocAt3 5 = Except.ok ⟨3, 5⟩ :=
  ⟨rfl, (c8_allocator_ctor_propagates allocFail 5 "out of memory" 3).1 rfl,
    rfl, (c8_allocator_ctor_propagates allocAt3 5 "out of memory" 3).2 rfl⟩

/-- C9: a default-constructed Buffer has size 0, byte size 0 for every element
width, a null memory handle, and no index passes its bounds condition. -/
theorem c9_default_ctor_empty (szT : Nat) :
    Buffer.default_ctor.size = 0 ∧
    size_of Buffer.default_ctor szT = 0 ∧
    Buffer.default_ctor.mMemory = nullptr ∧
    (∀ i : Int, Buffer.default_ctor.boundsOk i = false) := by
  refine ⟨rfl, ?_, rfl, ?_⟩
  · unfold size_of Buffer.size Buffer.default_ctor
    simp
  · intro i
    unfold Buffer.boundsOk Buffer.default_ctor
    simp

/-- C10: copy construction and copy assignment are shallow: the copy has the
same size and the same begin() cursor as the original, shares the backing
allocation, and a write of element i through the copy is read back through the
original at the same index. -/
theorem c10_copy_is_shallow (b t : Buffer) (h : Heap) (i v : Int) :
    (Buffer.copy b).size = b.size ∧
    Buffer.begin (Buffer.copy b) = Buffer.begin b ∧
    Buffer.copy_assign t b = Buffer.copy b ∧
    Buffer.read (Buffer.write h (Buffer.copy b) i v) b i = v := by
  refine ⟨rfl, rfl, rfl, ?_⟩
  unfold Buffer.read Buffer.write readAt writeAt Buffer.copy Buffer.elemAddr
  simp

end CPPBuffer
